import Mathlib

/-!
Verification development for the camera-streaming / robot-control server
(`camera_stream.py`).

The development shallowly embeds the parts of the source that the
specification talks about:

* the "frame slot" — the fields `self.frame_bytes` / `self.last_frame_time`
  of `CameraHandler`, written by `_capture_loop` under `self.lock` and read
  by `get_frame_jpeg_bytes` under the same lock — as a small labelled
  transition system (`SlotState`, `SlotStep`);
* the shutdown interaction between `CameraHandler.stop` and the `finally`
  block of the capture thread as an interleaving transition system
  (`CaptureSystem`, `TStep`/`SStep`/`PStep`);
* the sequential methods of `CameraHandler` (`__init__`, `start`, `stop`,
  `get_frame_jpeg_bytes`) as functions in an `Except`-monad in which
  reading a Python attribute that was never assigned raises
  (`PyErr.attrMissing`), mirroring Python `AttributeError` semantics;
* one iteration of the `generate_video_frames` generator body;
* `send_command_to_arduino_controller` and the `/api/control/<direction>`
  route.

Conventions used throughout:

* JPEG payloads (`bytes` objects) are modelled as `List Nat`; the Python
  truthiness test `if some_bytes:` is `¬ b.isEmpty` on the `some` case.
* `time.perf_counter()` values are modelled as exact rationals (`Time := ℚ`);
  the source compares float differences against the literal `1.0`.
* Log statements have no observable effect and are omitted.
-/

namespace CameraStream

/-- A `bytes` payload (one encoded JPEG frame). -/
abbrev Bytes := List Nat

/-- A `time.perf_counter()` timestamp, modelled as an exact rational. -/
abbrev Time := ℚ

/-- The freshness filter of `CameraHandler.get_frame_jpeg_bytes`
(lines 179–185): under the lock, the stored frame is returned only when it
is truthy (non-`None` and non-empty, Python `if self.frame_bytes`) and its
age is strictly below one second
(`time.perf_counter() - self.last_frame_time < 1.0`); otherwise `None`. -/
def freshFilter (fb : Option Bytes) (last now : Time) : Option Bytes :=
  match fb with
  | none => none
  | some b => if b.isEmpty then none else if now - last < 1 then some b else none

/-! ## The frame slot as a transition system (claim C1)

`_capture_loop` publishes a frame with

```
with self.lock:
    self.frame_bytes = stream.getvalue()
    self.last_frame_time = time.perf_counter()
```

so the two assignments happen in sequence while the writer holds
`self.lock`.  We model this with two atomic steps: `writeFrame`
(acquire the lock and store the payload) and `writeTime` (store the
timestamp and release the lock).  Between the two steps the slot is torn
(new payload, old timestamp) but the lock is held.  `get_frame_jpeg_bytes`
acquires the same lock before reading, so a reader only ever observes
states with `lockHeld = false`.  `history` is a ghost field recording, for
each completed publish, the payload/timestamp pair it wrote. -/

structure SlotState where
  lockHeld : Bool
  frame_bytes : Option Bytes
  last_frame_time : Time
  history : List (Bytes × Time)
deriving DecidableEq

/-- The slot before any publish: `frame_bytes = None`, `last_frame_time = 0`
(`CameraHandler.__init__`, lines 90 and 97). -/
def slotInit : SlotState :=
  { lockHeld := false, frame_bytes := none, last_frame_time := 0, history := [] }

/-- One atomic step of the writer inside the critical section of
`_capture_loop`.  `writeFrame` is the lock acquisition together with the
`self.frame_bytes = stream.getvalue()` assignment; `writeTime` is the
`self.last_frame_time = time.perf_counter()` assignment together with the
lock release, and records the completed publish in the ghost history. -/
inductive SlotStep : SlotState → SlotState → Prop
  | writeFrame (s : SlotState) (b : Bytes) :
      s.lockHeld = false →
      SlotStep s { s with lockHeld := true, frame_bytes := some b }
  | writeTime (s : SlotState) (b : Bytes) (t : Time) :
      s.lockHeld = true →
      s.frame_bytes = some b →
      SlotStep s { s with lockHeld := false, last_frame_time := t,
                          history := s.history ++ [(b, t)] }

/-- States of the slot reachable from `slotInit` by any interleaving of
publish steps. -/
inductive SlotReach : SlotState → Prop
  | refl : SlotReach slotInit
  | step {s s' : SlotState} : SlotReach s → SlotStep s s' → SlotReach s'

/-- What a `get_frame_jpeg_bytes` call observes at a lock-free state. -/
def slotRead (s : SlotState) (now : Time) : Option Bytes :=
  freshFilter s.frame_bytes s.last_frame_time now

/-! ## Shutdown interleaving of `stop()` with the capture thread (claims C2, C3)

`CameraHandler.stop` (lines 187–210) runs concurrently with the tail of
`_capture_loop` (lines 135–177).  We model both as programs over a shared
state, one program counter each, interleaved nondeterministically; each
step corresponds to one Python statement (guard conditions are evaluated
in a single step).  The camera device and the `self.camera` attribute are
distinguished: `camera` says whether `self.camera` currently references
the device (`True`) or is `None`; `deviceOpen` is the open/closed flag
of the device itself (`PiCamera.closed`); `releases` is a ghost counter of the
transitions of the device from open to closed.  `PiCamera.close()` on an
already-closed device is a no-op, and both close sites guard on
`self.camera` being non-`None` (an `AttributeError` from a vanished
reference is caught), so a close step that finds the device closed or the
reference gone releases nothing (`closeSkips`). -/

/-- Program counter of the capture thread inside `_capture_loop`:
the loop-head `if not self.running: break` check (line 142); the locked
slot write (lines 145–147), reached only after the check passed — the
check and the write are separate statements, so `running` may be cleared
between them; entering the `finally` block (after a `running`-flag break,
the stream ending, or a caught device exception); the
`self.running = False` statement; the close guard; the
`self.camera.close()` call; the `self.camera = None` statement; done. -/
inductive TPC
  | loopCheck | loopWrite | finallyEntry | finallyCheck | closeCam | camToNone | done
deriving DecidableEq

/-- Program counter of `stop()`: the `self.running = False` statement;
the bounded `thread.join(timeout=3.0)`; the safeguard close guard; the
safeguard `self.camera.close()`; `self.camera = None`;
`self.frame_bytes = None`; returned. -/
inductive SPC
  | setFlag | joinWait | checkCam | closeCam | camToNone | clearFrame | done
deriving DecidableEq

/-- Shared state of a started `CameraHandler` together with the two
program counters.  `camera = true` means `self.camera` references the
device; `deviceOpen` is the open flag of the device; `releases` counts actual
open-to-closed transitions of the device; `lateWrites` is a ghost counter
of capture-loop slot writes that land after `stop()` has already returned
(possible because the loop-head `running` check and the locked write are
separate statements). -/
structure CaptureSystem where
  running : Bool
  camera : Bool
  deviceOpen : Bool
  releases : Nat
  frame_bytes : Option Bytes
  last_frame_time : Time
  tpc : TPC
  spc : SPC
  lateWrites : Nat
deriving DecidableEq

/-- A started handler at an arbitrary point of the capture loop, with
`stop()` about to begin: the thread is in its loop, the device is open and
referenced by `self.camera`, `running` is `True`, and the slot holds an
arbitrary payload/timestamp. -/
def captureInit (fb : Option Bytes) (t : Time) : CaptureSystem :=
  { running := true, camera := true, deviceOpen := true, releases := 0,
    frame_bytes := fb, last_frame_time := t, tpc := .loopCheck, spc := .setFlag,
    lateWrites := 0 }

/-- Steps of the capture thread (`_capture_loop`).  `checkPasses` is the
loop-head `if not self.running: break` check observing `running` true;
`publishWrite` is the locked slot write (one critical section, which claim
C1 refines into two lock-protected sub-steps) — it is a separate statement
from the check, so it needs no `running` guard and can land arbitrarily
late, even after `stop()` has returned (then it bumps the `lateWrites`
ghost counter).  `exitLoop` is any of the ways the loop ends — `running`
observed false at the check, `capture_continuous` ending, or a device
exception (possible at either loop position), all of which are caught and
fall through to `finally`. -/
inductive TStep : CaptureSystem → CaptureSystem → Prop
  | checkPasses (s : CaptureSystem) :
      s.tpc = .loopCheck → s.running = true →
      TStep s { s with tpc := .loopWrite }
  | publishWrite (s : CaptureSystem) (b : Bytes) (t : Time) :
      s.tpc = .loopWrite →
      TStep s { s with frame_bytes := some b, last_frame_time := t, tpc := .loopCheck,
                       lateWrites :=
                         if s.spc = SPC.done then s.lateWrites + 1 else s.lateWrites }
  | exitLoop (s : CaptureSystem) :
      (s.tpc = .loopCheck ∨ s.tpc = .loopWrite) →
      TStep s { s with tpc := .finallyEntry }
  | finallySetFlag (s : CaptureSystem) :
      s.tpc = .finallyEntry →
      TStep s { s with running := false, tpc := .finallyCheck }
  | checkTrue (s : CaptureSystem) :
      s.tpc = .finallyCheck → s.camera = true → s.deviceOpen = true →
      TStep s { s with tpc := .closeCam }
  | checkFalse (s : CaptureSystem) :
      s.tpc = .finallyCheck → (s.camera = false ∨ s.deviceOpen = false) →
      TStep s { s with tpc := .camToNone }
  | closeDoes (s : CaptureSystem) :
      s.tpc = .closeCam → s.camera = true → s.deviceOpen = true →
      TStep s { s with deviceOpen := false, releases := s.releases + 1,
                       tpc := .camToNone }
  | closeSkips (s : CaptureSystem) :
      s.tpc = .closeCam → (s.camera = false ∨ s.deviceOpen = false) →
      TStep s { s with tpc := .camToNone }
  | camToNoneStep (s : CaptureSystem) :
      s.tpc = .camToNone →
      TStep s { s with camera := false, tpc := .done }

/-- Steps of `stop()` (lines 187–210).  `joinTimeout` models
`thread.join(timeout=3.0)` giving up after the bound; `joinDone` models the
thread having finished. -/
inductive SStep : CaptureSystem → CaptureSystem → Prop
  | setFlagStep (s : CaptureSystem) :
      s.spc = .setFlag →
      SStep s { s with running := false, spc := .joinWait }
  | joinDone (s : CaptureSystem) :
      s.spc = .joinWait → s.tpc = .done →
      SStep s { s with spc := .checkCam }
  | joinTimeout (s : CaptureSystem) :
      s.spc = .joinWait →
      SStep s { s with spc := .checkCam }
  | checkTrue (s : CaptureSystem) :
      s.spc = .checkCam → s.camera = true → s.deviceOpen = true →
      SStep s { s with spc := .closeCam }
  | checkFalse (s : CaptureSystem) :
      s.spc = .checkCam → (s.camera = false ∨ s.deviceOpen = false) →
      SStep s { s with spc := .camToNone }
  | closeDoes (s : CaptureSystem) :
      s.spc = .closeCam → s.camera = true → s.deviceOpen = true →
      SStep s { s with deviceOpen := false, releases := s.releases + 1,
                       spc := .camToNone }
  | closeSkips (s : CaptureSystem) :
      s.spc = .closeCam → (s.camera = false ∨ s.deviceOpen = false) →
      SStep s { s with spc := .camToNone }
  | camToNoneStep (s : CaptureSystem) :
      s.spc = .camToNone →
      SStep s { s with camera := false, spc := .clearFrame }
  | clearFrameStep (s : CaptureSystem) :
      s.spc = .clearFrame →
      SStep s { s with frame_bytes := none, spc := .done }

/-- One interleaved step: either the capture thread or `stop()` moves. -/
inductive PStep : CaptureSystem → CaptureSystem → Prop
  | thread {s s' : CaptureSystem} : TStep s s' → PStep s s'
  | stopper {s s' : CaptureSystem} : SStep s s' → PStep s s'

/-- Reachability under arbitrary interleaving. -/
inductive PReach (s0 : CaptureSystem) : CaptureSystem → Prop
  | refl : PReach s0 s0
  | step {s s' : CaptureSystem} : PReach s0 s → PStep s s' → PReach s0 s'

/-- Reachability using capture-thread steps only (no `stop()` call):
the fault-termination scenario of claim C3. -/
inductive TReach (s0 : CaptureSystem) : CaptureSystem → Prop
  | refl : TReach s0 s0
  | step {s s' : CaptureSystem} : TReach s0 s → TStep s s' → TReach s0 s'

/-- Global inductive invariant of the shutdown system. -/
def CaptureInv (s : CaptureSystem) : Prop :=
  (s.releases = if s.deviceOpen then 0 else 1) ∧
  (s.camera = false → s.deviceOpen = false) ∧
  (s.spc ≠ .setFlag → s.running = false) ∧
  ((s.spc = .clearFrame ∨ s.spc = .done) → s.camera = false) ∧
  (s.spc = .done → s.frame_bytes = none ∨ 0 < s.lateWrites) ∧
  (s.tpc = .camToNone → s.deviceOpen = false) ∧
  (s.spc = .camToNone → s.deviceOpen = false) ∧
  ((s.tpc = .finallyCheck ∨ s.tpc = .closeCam ∨ s.tpc = .camToNone ∨ s.tpc = .done) →
    s.running = false) ∧
  (s.tpc = .done → s.camera = false)


/-! ## Sequential model of the `CameraHandler` methods (claims C5, C7, C8, C9, C10)

Each method is translated statement by statement as a pure function in an
`Except PyErr` monad.  A `CameraHandler` record stores every instance
attribute wrapped in `Option`: `none` means the attribute was never
assigned (`__init__` returned early on the unavailable-library path), and
reading such an attribute raises `PyErr.attrMissing`, the Python
`AttributeError`.  The module-level global `PICAMERA_AVAILABLE` is passed
to each method as the parameter `avail`.  Device interaction in `start` is
resolved by a `DeviceOracle`: `openOk` says whether `picamera.PiCamera()`
succeeds, `configOk` whether applying resolution/framerate to the device
succeeds.  These functions model a single caller running alone; the
interleaving with the capture thread is covered by `CaptureSystem`. -/

/-- A Python exception that escapes one of the modelled functions.  Only
`AttributeError` from reading a never-assigned attribute can escape: every
other exception in the source is caught by a `try`/`except` around it. -/
inductive PyErr
  | attrMissing
deriving DecidableEq

/-- Read a Python instance attribute: raises `AttributeError` when the
attribute was never assigned. -/
def getAttr {α : Type} : Option α → Except PyErr α
  | some v => .ok v
  | none => .error .attrMissing

/-- Outcome of the device calls made inside the `try` block of `start`. -/
structure DeviceOracle where
  openOk : Bool
  configOk : Bool
deriving DecidableEq

/-- Ghost ledger of external effects performed by `start`: devices opened,
devices closed, capture threads launched. -/
structure StartEffects where
  opens : Nat
  closes : Nat
  threads : Nat
deriving DecidableEq

/-- No external effect. -/
def noFx : StartEffects := { opens := 0, closes := 0, threads := 0 }

/-- The instance attributes of `CameraHandler` (lines 82–97).  Every field
is `Option`-wrapped: `none` = attribute never assigned.  Inside the outer
`Option`: `camera` is `none` for `self.camera = None` and `some b` for a
device handle whose open flag is `b`; `thread` is `none` for
`self.thread = None` and `some alive` for a launched thread object; `lock`
is a plain `Bool` because only the presence of the lock object matters. -/
structure CameraHandler where
  camera : Option (Option Bool)
  frame_bytes : Option (Option Bytes)
  running : Option Bool
  lock : Bool
  resolution : Option (Nat × Nat)
  framerate : Option Nat
  jpeg_quality : Option Nat
  thread : Option (Option Bool)
  last_frame_time : Option Time
deriving DecidableEq

/-- `CameraHandler.__init__` (lines 82–97).  When `PICAMERA_AVAILABLE` is
false it assigns only `self.camera = None` and `self.running = False` and
returns early, leaving `lock`, `frame_bytes`, `resolution`, `framerate`,
`jpeg_quality`, `thread` and `last_frame_time` unset; otherwise it assigns
all of them. -/
def CameraHandler.init (avail : Bool) (resolution : Nat × Nat) (framerate : Nat)
    (jpeg_quality : Nat) : CameraHandler :=
  if avail = false then
    { camera := some none, frame_bytes := none, running := some false, lock := false,
      resolution := none, framerate := none, jpeg_quality := none, thread := none,
      last_frame_time := none }
  else
    { camera := some none, frame_bytes := some none, running := some false, lock := true,
      resolution := some resolution, framerate := some framerate,
      jpeg_quality := some jpeg_quality, thread := some none, last_frame_time := some 0 }

/-- The `try` block of `start` (lines 108–124): open the device, read
`self.resolution` and `self.framerate` and apply them to the device, set
`self.running = True`, create and launch the capture thread, then read
`self.jpeg_quality` for the final log line.  An `.error` result is a raised
exception carrying the handler state and effect ledger at the raise point
(every such exception is caught by the `except` clauses of `start`). -/
def CameraHandler.start_try_block (oracle : DeviceOracle) (self : CameraHandler) :
    Except (CameraHandler × StartEffects) (CameraHandler × StartEffects) :=
  if oracle.openOk = false then .error (self, noFx)
  else
    let self1 := { self with camera := some (some true) }
    match self1.resolution, self1.framerate with
    | none, _ => .error (self1, { opens := 1, closes := 0, threads := 0 })
    | some _, none => .error (self1, { opens := 1, closes := 0, threads := 0 })
    | some _, some _ =>
      if oracle.configOk = false then
        .error (self1, { opens := 1, closes := 0, threads := 0 })
      else
        let self2 := { self1 with running := some true, thread := some (some true) }
        match self2.jpeg_quality with
        | none => .error (self2, { opens := 1, closes := 0, threads := 1 })
        | some _ => .ok (self2, { opens := 1, closes := 0, threads := 1 })

/-- `CameraHandler.start` (lines 99–133).  First guard: if the library is
unavailable or `self.camera is not None`, log (which reads `self.running`)
and return.  Second guard: if `self.running`, return.  Then run the `try`
block; on an exception the `except` clause sets `self.running = False` and,
if `self.camera` is truthy, closes it and sets it to `None`. -/
def CameraHandler.start (avail : Bool) (oracle : DeviceOracle) (self : CameraHandler) :
    Except PyErr (CameraHandler × StartEffects) := do
  let cam ← getAttr self.camera
  if avail = false ∨ cam ≠ none then
    let _ ← getAttr self.running
    return (self, noFx)
  else
    let r ← getAttr self.running
    if r = true then return (self, noFx)
    else
      match CameraHandler.start_try_block oracle self with
      | .ok (self2, fx) => return (self2, fx)
      | .error (selfF, fx) =>
        let selfF := { selfF with running := some false }
        match selfF.camera with
        | none => .error .attrMissing
        | some none => return (selfF, fx)
        | some (some isOpen) =>
          return ({ selfF with camera := some none },
            if isOpen then { fx with closes := fx.closes + 1 } else fx)

/-- `CameraHandler.get_frame_jpeg_bytes` (lines 179–185): return `None`
when the library is unavailable; otherwise, under `self.lock`, return the
stored frame only if it is truthy and less than one second old.  The age
test short-circuits: `self.last_frame_time` is read only when
`self.frame_bytes` is truthy. -/
def CameraHandler.get_frame_jpeg_bytes (avail : Bool) (self : CameraHandler)
    (now : Time) : Except PyErr (Option Bytes) := do
  if avail = false then return none
  else if self.lock = false then .error .attrMissing
  else
    let fb ← getAttr self.frame_bytes
    match fb with
    | none => return none
    | some b =>
      if b.isEmpty then return none
      else
        let t ← getAttr self.last_frame_time
        if now - t < 1 then return (some b) else return none

/-- `CameraHandler.stop` (lines 187–210), single-caller view (the
interleaving with a live capture thread is `CaptureSystem`): return
immediately when the library is unavailable; set `self.running = False`;
read `self.thread` and join it (joining assigns no attribute); then the
safeguard: if `self.camera` is truthy and not closed, close it; finally
`self.camera = None` and `self.frame_bytes = None`. -/
def CameraHandler.stop (avail : Bool) (self : CameraHandler) :
    Except PyErr CameraHandler := do
  if avail = false then return self
  else
    let self1 := { self with running := some false }
    let _th ← getAttr self1.thread
    let cam ← getAttr self1.camera
    let self2 :=
      match cam with
      | some true => { self1 with camera := some (some false) }
      | _ => self1
    return { self2 with camera := some none, frame_bytes := some none }

/-! ## One iteration of `generate_video_frames` (claims C3, C5)

The generator body (lines 545–602) per iteration: if there is no handler,
or the handler is not running, or the library is unavailable, synthesize
and emit a placeholder image whose overlay text depends on
`PICAMERA_AVAILABLE`; otherwise call `get_frame_jpeg_bytes` and emit the
returned frame if truthy, else emit nothing this cycle.  The whole body
runs inside `try`/`except`, so an exception ends the stream instead of
propagating (`streamEnd`). -/

/-- What one iteration of the generator produces for the client. -/
inductive SessionOutput
  | placeholder (libMissing : Bool)
  | emitFrame (b : Bytes)
  | skip
  | streamEnd
deriving DecidableEq

/-- Core of one `generate_video_frames` iteration, over the values the
body reads: the `PICAMERA_AVAILABLE` global, the result of reading
`camera_handler.running`, and the result of the `get_frame_jpeg_bytes`
call. -/
def video_iteration_core (avail : Bool) (running : Except PyErr Bool)
    (frameRead : Except PyErr (Option Bytes)) : SessionOutput :=
  match running with
  | .error _ => .streamEnd
  | .ok r =>
    if r = false ∨ avail = false then .placeholder (avail = false)
    else
      match frameRead with
      | .error _ => .streamEnd
      | .ok none => .skip
      | .ok (some b) => if b.isEmpty then .skip else .emitFrame b

/-- One iteration of `generate_video_frames` against a (possibly absent)
`CameraHandler`. -/
def generate_video_frames_step (avail : Bool) (handler : Option CameraHandler)
    (now : Time) : SessionOutput :=
  match handler with
  | none => .placeholder (avail = false)
  | some h =>
      video_iteration_core avail (getAttr h.running)
        (CameraHandler.get_frame_jpeg_bytes avail h now)

/-- One iteration of `generate_video_frames` against a `CaptureSystem`
state (library available, handler present and fully initialised). -/
def capture_session_step (s : CaptureSystem) (now : Time) : SessionOutput :=
  video_iteration_core true (.ok s.running)
    (.ok (freshFilter s.frame_bytes s.last_frame_time now))

/-! ## Relay send and the control endpoint (claims C4, C6)

`send_command_to_arduino_controller` (lines 214–232) opens a short-lived
TCP connection, sends the single command character, and returns a message
string; every failure (timeout, socket error, anything else) is caught and
an error message string is returned instead — the function never raises.
`api_control_route` (lines 609–620) lowercases the path parameter, maps it
through `command_map`, and either calls the send function and replies
`{"status": "success", "message": ...}` with HTTP 200, or replies
`{"status": "error", "message": "Invalid direction"}` with HTTP 400
without touching the relay.

The English text of the returned message strings is abstracted into the
`SendMsg` constructors (one per `return` site of the send function); the
JSON `status` field is kept as a literal string because the claims are
about it. -/

/-- How the relay interaction goes for one send attempt: connection and
send succeed; `socket.timeout` raised; `socket.error` raised; any other
exception raised.  The three failure outcomes fire before the command byte
is delivered. -/
inductive RelayOutcome
  | ok
  | timeout
  | socketErr
  | otherErr
deriving DecidableEq

/-- The message string returned by `send_command_to_arduino_controller`,
one constructor per `return` site, carrying the command character the
source interpolates into the string. -/
inductive SendMsg
  | sentOk (c : Char)
  | timeoutMsg (c : Char)
  | socketErrMsg (c : Char)
  | unexpectedErrMsg (c : Char)
deriving DecidableEq

/-- Ghost ledger of the relay traffic caused by one request. -/
structure RelayEffect where
  connectAttempts : Nat
  sentBytes : List Char
deriving DecidableEq

/-- `send_command_to_arduino_controller` (lines 214–232): attempt one
connection; on success send exactly the one command character; on any
failure catch the exception and return an error message.  Returns the
message together with the relay traffic. -/
def send_command_to_arduino_controller (outcome : RelayOutcome) (command_char : Char) :
    SendMsg × RelayEffect :=
  match outcome with
  | .ok => (.sentOk command_char, { connectAttempts := 1, sentBytes := [command_char] })
  | .timeout => (.timeoutMsg command_char, { connectAttempts := 1, sentBytes := [] })
  | .socketErr => (.socketErrMsg command_char, { connectAttempts := 1, sentBytes := [] })
  | .otherErr => (.unexpectedErrMsg command_char, { connectAttempts := 1, sentBytes := [] })

/-- The `message` field of the JSON reply of the control route. -/
inductive RouteMsg
  | fromSend (m : SendMsg)
  | invalidDirection
deriving DecidableEq

/-- The JSON body and HTTP status code produced by `api_control_route`. -/
structure ControlResponse where
  status : String
  message : RouteMsg
  httpCode : Nat
deriving DecidableEq

/-- ASCII lowercasing of one character, as `str.lower` acts on the ASCII
direction strings. -/
def lowerChar (c : Char) : Char :=
  if 65 ≤ c.toNat ∧ c.toNat ≤ 90 then Char.ofNat (c.toNat + 32) else c

/-- `direction.lower()` on an ASCII path parameter. -/
def lowerStr (s : String) : String :=
  { data := s.data.map lowerChar }

/-- The dictionary `command_map` of `api_control_route` (line 611) as a
lookup function. -/
def command_map (d : String) : Option Char :=
  if d = "up" then some 'F'
  else if d = "down" then some 'B'
  else if d = "left" then some 'L'
  else if d = "right" then some 'R'
  else if d = "stop" then some 'S'
  else none

/-- `api_control_route` (lines 609–620): look up the lowercased direction;
if found, send the command character to the relay and reply status
`"success"` with the message of the send function and HTTP 200 (regardless of
how the send went); otherwise reply status `"error"`, message "Invalid
direction", HTTP 400, with no relay interaction. -/
def api_control_route (outcome : RelayOutcome) (direction : String) :
    ControlResponse × RelayEffect :=
  match command_map (lowerStr direction) with
  | some command_char =>
      let r := send_command_to_arduino_controller outcome command_char
      ({ status := "success", message := .fromSend r.1, httpCode := 200 }, r.2)
  | none =>
      ({ status := "error", message := .invalidDirection, httpCode := 400 },
       { connectAttempts := 0, sentBytes := [] })

/-! ## Helper theorems -/

/-- Consistency invariant of the slot: at every state a reader can observe
(lock not held), the payload/timestamp pair is either the initial
never-published pair or exactly the pair written by one single publish. -/
theorem slot_consistency {s : SlotState} (hr : SlotReach s)
    (hfree : s.lockHeld = false) :
    (s.frame_bytes = none ∧ s.last_frame_time = 0) ∨
      ∃ b, s.frame_bytes = some b ∧ (b, s.last_frame_time) ∈ s.history := by
  induction hr with
  | refl => exact Or.inl ⟨rfl, rfl⟩
  | step _ hstep _ =>
    cases hstep with
    | writeFrame b hlock => simp at hfree
    | writeTime b t hlock hfb =>
      exact Or.inr ⟨b, by simp [hfb], by simp⟩

/-- Thread-only runs are in particular interleaved runs. -/
theorem TReach.toPReach {s0 s : CaptureSystem} (h : TReach s0 s) : PReach s0 s := by
  induction h with
  | refl => exact PReach.refl
  | step _ hstep ih => exact PReach.step ih (PStep.thread hstep)
theorem captureInv_init (fb : Option Bytes) (t : Time) : CaptureInv (captureInit fb t) := by
  simp [CaptureInv, captureInit]

theorem captureInv_step {s s' : CaptureSystem} (hinv : CaptureInv s) (hstep : PStep s s') :
    CaptureInv s' := by
  obtain ⟨h1, h2, h3, h4, h5, h6, h7, h8, h9⟩ := hinv
  cases hstep with
  | thread ht =>
    cases ht with
    | checkPasses hpc hrun =>
      exact ⟨h1, h2, h3, h4, h5, by simp, h7, by simp, by simp⟩
    | publishWrite b t hpc =>
      refine ⟨h1, h2, h3, h4, ?_, by simp, h7, by simp, by simp⟩
      intro hdone
      simp only at hdone ⊢
      exact Or.inr (by simp [hdone])
    | exitLoop hor => exact ⟨h1, h2, h3, h4, h5, by simp, h7, by simp, by simp⟩
    | finallySetFlag hpc =>
      exact ⟨h1, h2, fun _ => rfl, h4, h5, by simp [hpc], h7, fun _ => rfl, by simp [hpc]⟩
    | checkTrue hpc hcam hdev =>
      exact ⟨h1, h2, h3, h4, h5, by simp, h7, fun _ => h8 (Or.inl hpc), by simp⟩
    | checkFalse hpc hor =>
      refine ⟨h1, h2, h3, h4, h5, ?_, h7, fun _ => h8 (Or.inl hpc), by simp⟩
      intro _
      rcases hor with hc | hd
      · exact h2 hc
      · exact hd
    | closeDoes hpc hcam hdev =>
      refine ⟨by simp [h1, hdev], fun hc => rfl, h3, h4, h5, fun _ => rfl, fun _ => rfl,
        fun _ => h8 (Or.inr (Or.inl hpc)), by simp⟩
    | closeSkips hpc hor =>
      refine ⟨h1, h2, h3, h4, h5, ?_, h7, fun _ => h8 (Or.inr (Or.inl hpc)), by simp⟩
      intro _
      rcases hor with hc | hd
      · exact h2 hc
      · exact hd
    | camToNoneStep hpc =>
      exact ⟨h1, fun _ => h6 hpc, h3, fun h => rfl, h5, by simp, h7,
        fun _ => h8 (Or.inr (Or.inr (Or.inl hpc))), fun _ => rfl⟩
  | stopper hs =>
    cases hs with
    | setFlagStep hpc => exact ⟨h1, h2, fun _ => rfl, by simp, by simp, h6, by simp, fun _ => rfl, h9⟩
    | joinDone hpc htpc =>
      exact ⟨h1, h2, fun _ => h3 (by simp [hpc]), by simp, by simp, h6, by simp,
        h8, h9⟩
    | joinTimeout hpc =>
      exact ⟨h1, h2, fun _ => h3 (by simp [hpc]), by simp, by simp, h6, by simp,
        h8, h9⟩
    | checkTrue hpc hcam hdev =>
      exact ⟨h1, h2, fun _ => h3 (by simp [hpc]), by simp, by simp, h6, by simp, h8, h9⟩
    | checkFalse hpc hor =>
      refine ⟨h1, h2, fun _ => h3 (by simp [hpc]), by simp, by simp, h6, ?_, h8, h9⟩
      intro _
      rcases hor with hc | hd
      · exact h2 hc
      · exact hd
    | closeDoes hpc hcam hdev =>
      refine ⟨by simp [h1, hdev], fun hc => rfl, fun _ => h3 (by simp [hpc]), by simp, by simp,
        fun _ => rfl, fun _ => rfl, h8, h9⟩
    | closeSkips hpc hor =>
      refine ⟨h1, h2, fun _ => h3 (by simp [hpc]), by simp, by simp, h6, ?_, h8, h9⟩
      intro _
      rcases hor with hc | hd
      · exact h2 hc
      · exact hd
    | camToNoneStep hpc =>
      exact ⟨h1, fun _ => h7 hpc, fun _ => h3 (by simp [hpc]), fun _ => rfl, by simp,
        h6, by simp, h8, fun _ => rfl⟩
    | clearFrameStep hpc =>
      exact ⟨h1, h2, fun _ => h3 (by simp [hpc]), fun _ => h4 (Or.inl hpc),
        fun _ => Or.inl rfl, h6, by simp, h8, h9⟩

/-- The invariant holds at every reachable state. -/
theorem captureInv_reach {fb : Option Bytes} {t : Time} {s : CaptureSystem}
    (h : PReach (captureInit fb t) s) : CaptureInv s := by
  induction h with
  | refl => exact captureInv_init fb t
  | step _ hstep ih => exact captureInv_step ih hstep

/-! ## Claim theorems -/

/-- C1: for every interleaving of publish operations (the capture loop
storing `frame_bytes` and `last_frame_time` under the lock) with read
operations (`get_frame_jpeg_bytes`, which acquires the same lock and so
observes only lock-free states), the observed payload/timestamp pair was
written by one single publish — never the bytes of one publish with the
timestamp of another — and in particular every successful read returns a
payload that was published together with the current slot timestamp. -/
theorem publish_read_atomic {s : SlotState} (hr : SlotReach s)
    (hfree : s.lockHeld = false) :
    ((s.frame_bytes = none ∧ s.last_frame_time = 0) ∨
      ∃ b, s.frame_bytes = some b ∧ (b, s.last_frame_time) ∈ s.history) ∧
    ∀ now b, slotRead s now = some b → (b, s.last_frame_time) ∈ s.history := by
  have hc := slot_consistency hr hfree
  refine ⟨hc, ?_⟩
  intro now b hread
  rcases hc with ⟨hn, _⟩ | ⟨b2, hsome, hmem⟩
  · rw [slotRead, hn] at hread
    simp [freshFilter] at hread
  · rw [slotRead, hsome] at hread
    simp only [freshFilter] at hread
    split_ifs at hread with h1 h2
    injection hread with h
    exact h ▸ hmem

/-- Witness for C1: a concrete run — one complete publish of payload
`[1]` at time `2` — after which a read at time `2` returns that payload,
and the theorem places the pair in the publish history. -/
theorem publish_read_atomic_witness :
    (([1] : Bytes), (2 : Time)) ∈
      ({ lockHeld := false, frame_bytes := some [1], last_frame_time := 2,
         history := [([1], 2)] } : SlotState).history :=
  (publish_read_atomic
    (SlotReach.step
      (SlotReach.step SlotReach.refl (SlotStep.writeFrame slotInit [1] rfl))
      (SlotStep.writeTime
        { lockHeld := true, frame_bytes := some [1], last_frame_time := 0, history := [] }
        [1] 2 rfl rfl))
    rfl).2 2 [1] (by simp [slotRead, freshFilter])

/-- C2 counterexample: the loop-head `if not self.running: break` check
and the locked slot write are separate statements, so a write that has
already passed its check can land after `stop()` has returned.  Concrete
interleaving: the thread passes the check; `stop()` clears the flag, times
out on the join, releases the device, sets the handle and the slot to
`None` and returns; the straggler write then lands — after `stop()` has
returned the slot holds `some [4]`, not `None`, and a read within the
freshness window returns it, contrary to the claim. -/
theorem stop_slot_refilled_after_return :
    PReach (captureInit none 0)
      { running := false, camera := false, deviceOpen := false, releases := 1,
        frame_bytes := some [4], last_frame_time := 5, tpc := .loopCheck,
        spc := .done, lateWrites := 1 } ∧
    ({ running := false, camera := false, deviceOpen := false, releases := 1,
       frame_bytes := some [4], last_frame_time := 5, tpc := .loopCheck,
       spc := .done, lateWrites := 1 } : CaptureSystem).spc = SPC.done ∧
    ({ running := false, camera := false, deviceOpen := false, releases := 1,
       frame_bytes := some [4], last_frame_time := 5, tpc := .loopCheck,
       spc := .done, lateWrites := 1 } : CaptureSystem).frame_bytes ≠ none ∧
    freshFilter (some [4]) 5 5 = some [4] := by
  refine ⟨?_, rfl, by simp, by simp [freshFilter]⟩
  exact PReach.step
    (PReach.step
      (PReach.step
        (PReach.step
          (PReach.step
            (PReach.step
              (PReach.step
                (PReach.step PReach.refl
                  (PStep.thread (TStep.checkPasses (captureInit none 0) rfl rfl)))
                (PStep.stopper (SStep.setFlagStep
                  { running := true, camera := true, deviceOpen := true, releases := 0,
                    frame_bytes := none, last_frame_time := 0,
                    tpc := .loopWrite, spc := .setFlag, lateWrites := 0 } rfl)))
              (PStep.stopper (SStep.joinTimeout
                { running := false, camera := true, deviceOpen := true, releases := 0,
                  frame_bytes := none, last_frame_time := 0,
                  tpc := .loopWrite, spc := .joinWait, lateWrites := 0 } rfl)))
            (PStep.stopper (SStep.checkTrue
              { running := false, camera := true, deviceOpen := true, releases := 0,
                frame_bytes := none, last_frame_time := 0,
                tpc := .loopWrite, spc := .checkCam, lateWrites := 0 } rfl rfl rfl)))
          (PStep.stopper (SStep.closeDoes
            { running := false, camera := true, deviceOpen := true, releases := 0,
              frame_bytes := none, last_frame_time := 0,
              tpc := .loopWrite, spc := .closeCam, lateWrites := 0 } rfl rfl rfl)))
        (PStep.stopper (SStep.camToNoneStep
          { running := false, camera := true, deviceOpen := false, releases := 1,
            frame_bytes := none, last_frame_time := 0,
            tpc := .loopWrite, spc := .camToNone, lateWrites := 0 } rfl)))
      (PStep.stopper (SStep.clearFrameStep
        { running := false, camera := false, deviceOpen := false, releases := 1,
          frame_bytes := none, last_frame_time := 0,
          tpc := .loopWrite, spc := .clearFrame, lateWrites := 0 } rfl)))
    (PStep.thread (TStep.publishWrite
      { running := false, camera := false, deviceOpen := false, releases := 1,
        frame_bytes := none, last_frame_time := 0,
        tpc := .loopWrite, spc := .done, lateWrites := 0 } [4] 5 rfl))

/-- C2 (amended): from every state of a started `CameraHandler` (any
interleaving point of the capture thread), once `stop()` has returned, the
device has been released exactly once — the counter of open-to-closed
transitions of the device is `1`, neither `0` nor `2` — and the
`self.camera` field is `None`.  The frame slot is `None` unless a
capture-loop write that had already passed its `running` check
(necessarily before `stop()` cleared the flag) landed after `stop()`
cleared the slot; in that race the slot holds the straggler frame (see the
counterexample). -/
theorem stop_releases_exactly_once {fb : Option Bytes} {t : Time} {s : CaptureSystem}
    (h : PReach (captureInit fb t) s) (hdone : s.spc = SPC.done) :
    s.releases = 1 ∧ s.camera = false ∧
      (s.lateWrites = 0 → s.frame_bytes = none ∧
        freshFilter s.frame_bytes s.last_frame_time t = none) := by
  obtain ⟨h1, h2, _, h4, h5, _, _, _, _⟩ := captureInv_reach h
  have hcam : s.camera = false := h4 (Or.inr hdone)
  have hdev : s.deviceOpen = false := h2 hcam
  refine ⟨by simp [h1, hdev], hcam, ?_⟩
  intro hlw
  rcases h5 hdone with hfb | hpos
  · exact ⟨hfb, by simp [freshFilter, hfb]⟩
  · rw [hlw] at hpos
    exact absurd hpos (by simp)

/-- Witness for C2 (amended): a concrete interleaving with no straggler
write — the capture thread stays at its loop-head check, `stop()` times
out on the join and releases the device itself — reaching
`stop()`-returned with exactly one release, the handle `None` and the
slot cleared. -/
theorem stop_releases_exactly_once_witness :
    ∃ s : CaptureSystem, PReach (captureInit (some ([3] : Bytes)) 0) s ∧
      s.spc = SPC.done ∧ s.releases = 1 ∧ s.camera = false ∧ s.frame_bytes = none := by
  have hrun : PReach (captureInit (some ([3] : Bytes)) 0)
      { running := false, camera := false, deviceOpen := false, releases := 1,
        frame_bytes := none, last_frame_time := 0, tpc := .loopCheck, spc := .done,
        lateWrites := 0 } :=
    PReach.step
      (PReach.step
        (PReach.step
          (PReach.step
            (PReach.step
              (PReach.step PReach.refl
                (PStep.stopper (SStep.setFlagStep (captureInit (some [3]) 0) rfl)))
              (PStep.stopper (SStep.joinTimeout
                { running := false, camera := true, deviceOpen := true, releases := 0,
                  frame_bytes := some [3], last_frame_time := 0,
                  tpc := .loopCheck, spc := .joinWait, lateWrites := 0 } rfl)))
            (PStep.stopper (SStep.checkTrue
              { running := false, camera := true, deviceOpen := true, releases := 0,
                frame_bytes := some [3], last_frame_time := 0,
                tpc := .loopCheck, spc := .checkCam, lateWrites := 0 } rfl rfl rfl)))
          (PStep.stopper (SStep.closeDoes
            { running := false, camera := true, deviceOpen := true, releases := 0,
              frame_bytes := some [3], last_frame_time := 0,
              tpc := .loopCheck, spc := .closeCam, lateWrites := 0 } rfl rfl rfl)))
        (PStep.stopper (SStep.camToNoneStep
          { running := false, camera := true, deviceOpen := false, releases := 1,
            frame_bytes := some [3], last_frame_time := 0,
            tpc := .loopCheck, spc := .camToNone, lateWrites := 0 } rfl)))
      (PStep.stopper (SStep.clearFrameStep
        { running := false, camera := false, deviceOpen := false, releases := 1,
          frame_bytes := some [3], last_frame_time := 0,
          tpc := .loopCheck, spc := .clearFrame, lateWrites := 0 } rfl))
  have h := stop_releases_exactly_once hrun rfl
  exact ⟨_, hrun, rfl, h.1, h.2.1, (h.2.2 rfl).1⟩

/-- C3 counterexample: a device fault terminates the capture loop while
`running` is still true (the `exitLoop` step fires from the initial state,
where `running = true`), the `finally` block of the loop runs to completion —
yet the end state still holds the last published payload:
`frame_bytes = some [7] ≠ none`, so the frame slot is not cleared, contrary
to the claim. -/
theorem fault_path_keeps_frame_bytes :
    (captureInit (some ([7] : Bytes)) 0).running = true ∧
    TReach (captureInit (some ([7] : Bytes)) 0)
      { running := false, camera := false, deviceOpen := false, releases := 1,
        frame_bytes := some [7], last_frame_time := 0, tpc := .done, spc := .setFlag,
        lateWrites := 0 } ∧
    ({ running := false, camera := false, deviceOpen := false, releases := 1,
       frame_bytes := some [7], last_frame_time := 0, tpc := .done,
       spc := .setFlag, lateWrites := 0 } : CaptureSystem).tpc = TPC.done ∧
    ({ running := false, camera := false, deviceOpen := false, releases := 1,
       frame_bytes := some [7], last_frame_time := 0, tpc := .done,
       spc := .setFlag, lateWrites := 0 } : CaptureSystem).frame_bytes ≠ none := by
  refine ⟨rfl, ?_, rfl, by simp⟩
  exact TReach.step
    (TReach.step
      (TReach.step
        (TReach.step
          (TReach.step TReach.refl
            (TStep.exitLoop (captureInit (some [7]) 0) (Or.inl rfl)))
          (TStep.finallySetFlag
            { running := true, camera := true, deviceOpen := true, releases := 0,
              frame_bytes := some [7], last_frame_time := 0,
              tpc := .finallyEntry, spc := .setFlag, lateWrites := 0 } rfl))
        (TStep.checkTrue
          { running := false, camera := true, deviceOpen := true, releases := 0,
            frame_bytes := some [7], last_frame_time := 0,
            tpc := .finallyCheck, spc := .setFlag, lateWrites := 0 } rfl rfl rfl))
      (TStep.closeDoes
        { running := false, camera := true, deviceOpen := true, releases := 0,
          frame_bytes := some [7], last_frame_time := 0,
          tpc := .closeCam, spc := .setFlag, lateWrites := 0 } rfl rfl rfl))
    (TStep.camToNoneStep
      { running := false, camera := true, deviceOpen := false, releases := 1,
        frame_bytes := some [7], last_frame_time := 0,
        tpc := .camToNone, spc := .setFlag, lateWrites := 0 } rfl)

/-- C3 (amended): for every device fault that terminates the capture loop
while `running` is still true, the producer ends with `running` false, the
device released exactly once with the handle set to `None`, and no
exception propagates into a streaming session — a session iteration at the
post-fault state never emits a frame (it synthesizes the offline
placeholder, since `running` is false).  The frame slot, however, is NOT
cleared by the fault path: `frame_bytes` keeps the last published payload
until `stop()` clears it (see the counterexample); consumers still never
observe it, because the generator checks `running` before reading the
slot. -/
theorem fault_path_end_state {fb : Option Bytes} {t : Time} {s : CaptureSystem}
    (h : TReach (captureInit fb t) s) (hdone : s.tpc = TPC.done) :
    s.running = false ∧ s.camera = false ∧ s.deviceOpen = false ∧ s.releases = 1 ∧
      ∀ now b, capture_session_step s now ≠ SessionOutput.emitFrame b := by
  obtain ⟨h1, h2, _, _, _, _, _, h8, h9⟩ := captureInv_reach h.toPReach
  have hrun : s.running = false := h8 (Or.inr (Or.inr (Or.inr hdone)))
  have hcam : s.camera = false := h9 hdone
  have hdev : s.deviceOpen = false := h2 hcam
  refine ⟨hrun, hcam, hdev, by simp [h1, hdev], ?_⟩
  intro now b
  simp [capture_session_step, video_iteration_core, hrun]

/-- Witness for C3 (amended): a concrete fault-terminated run after which
the producer is stopped, released once, and the session iteration does not
emit the retained payload. -/
theorem fault_path_end_state_witness :
    ∃ s : CaptureSystem, TReach (captureInit (some ([9] : Bytes)) 0) s ∧
      s.tpc = TPC.done ∧ s.running = false ∧ s.camera = false ∧
      capture_session_step s 0 ≠ SessionOutput.emitFrame [9] := by
  have hrun : TReach (captureInit (some ([9] : Bytes)) 0)
      { running := false, camera := false, deviceOpen := false, releases := 1,
        frame_bytes := some [9], last_frame_time := 0, tpc := .done, spc := .setFlag,
        lateWrites := 0 } :=
    TReach.step
      (TReach.step
        (TReach.step
          (TReach.step
            (TReach.step TReach.refl
              (TStep.exitLoop (captureInit (some [9]) 0) (Or.inl rfl)))
            (TStep.finallySetFlag
              { running := true, camera := true, deviceOpen := true, releases := 0,
                frame_bytes := some [9], last_frame_time := 0,
                tpc := .finallyEntry, spc := .setFlag, lateWrites := 0 } rfl))
          (TStep.checkTrue
            { running := false, camera := true, deviceOpen := true, releases := 0,
              frame_bytes := some [9], last_frame_time := 0,
              tpc := .finallyCheck, spc := .setFlag, lateWrites := 0 } rfl rfl rfl))
        (TStep.closeDoes
          { running := false, camera := true, deviceOpen := true, releases := 0,
            frame_bytes := some [9], last_frame_time := 0,
            tpc := .closeCam, spc := .setFlag, lateWrites := 0 } rfl rfl rfl))
      (TStep.camToNoneStep
        { running := false, camera := true, deviceOpen := false, releases := 1,
          frame_bytes := some [9], last_frame_time := 0,
          tpc := .camToNone, spc := .setFlag, lateWrites := 0 } rfl)
  have h := fault_path_end_state hrun rfl
  exact ⟨_, hrun, rfl, h.1, h.2.1, h.2.2.2.2 0 [9]⟩

/-- C4: evaluation of the control endpoint at the failing input.  When the
relay send of a valid direction fails with a timeout, the route still
replies `{"status": "success"}` with HTTP 200 — the timeout is visible
only inside the free-text message — so the structured part of the response
does NOT distinguish a failed relay send from a successful one; the only
structured failure (status `"error"`, HTTP 400) is reserved for invalid
directions.  The in-repo browser client branches on
`data.status !== "success"` to surface control errors, which this reply
never triggers. -/
theorem control_timeout_reports_success :
    api_control_route RelayOutcome.timeout "up" =
      ({ status := "success", message := RouteMsg.fromSend (SendMsg.timeoutMsg 'F'),
         httpCode := 200 },
       { connectAttempts := 1, sentBytes := [] }) ∧
    (api_control_route RelayOutcome.timeout "up").1.status ≠ "error" ∧
    (api_control_route RelayOutcome.timeout "up").1.status =
      (api_control_route RelayOutcome.ok "up").1.status := by
  refine ⟨by decide, by decide, by decide⟩

/-- C6 counterexample: the direction `"UP"` is outside the set
`{up, down, left, right, stop}`, yet — because the route lowercases the
path parameter before the lookup — the request succeeds with HTTP 200 and
the relay is contacted (byte `F` sent), instead of the claimed 400
client error with no relay connection. -/
theorem control_uppercase_direction_accepted :
    ("UP" : String) ≠ "up" ∧ ("UP" : String) ≠ "down" ∧ ("UP" : String) ≠ "left" ∧
    ("UP" : String) ≠ "right" ∧ ("UP" : String) ≠ "stop" ∧
    (api_control_route RelayOutcome.ok "UP").1.httpCode = 200 ∧
    (api_control_route RelayOutcome.ok "UP").1.status = "success" ∧
    (api_control_route RelayOutcome.ok "UP").2 =
      { connectAttempts := 1, sentBytes := ['F'] } := by
  decide

/-- C6 (amended): the route matches the direction case-insensitively
(lowercasing first).  For every direction string: if its lowercased form
is `up`, the request causes exactly the single ASCII byte `F` to be sent
to the relay (one connection, payload `['F']`) with a success-status
HTTP 200 response — and likewise `down` to `B`, `left` to `L`, `right` to
`R`, `stop` to `S`; if its lowercased form is outside this set, the reply
is a 400 client error and no relay connection is attempted. -/
theorem control_route_mapping (outcome : RelayOutcome) (direction : String) :
    (lowerStr direction = "up" →
      api_control_route RelayOutcome.ok direction =
        ({ status := "success", message := RouteMsg.fromSend (SendMsg.sentOk 'F'),
           httpCode := 200 }, { connectAttempts := 1, sentBytes := ['F'] })) ∧
    (lowerStr direction = "down" →
      api_control_route RelayOutcome.ok direction =
        ({ status := "success", message := RouteMsg.fromSend (SendMsg.sentOk 'B'),
           httpCode := 200 }, { connectAttempts := 1, sentBytes := ['B'] })) ∧
    (lowerStr direction = "left" →
      api_control_route RelayOutcome.ok direction =
        ({ status := "success", message := RouteMsg.fromSend (SendMsg.sentOk 'L'),
           httpCode := 200 }, { connectAttempts := 1, sentBytes := ['L'] })) ∧
    (lowerStr direction = "right" →
      api_control_route RelayOutcome.ok direction =
        ({ status := "success", message := RouteMsg.fromSend (SendMsg.sentOk 'R'),
           httpCode := 200 }, { connectAttempts := 1, sentBytes := ['R'] })) ∧
    (lowerStr direction = "stop" →
      api_control_route RelayOutcome.ok direction =
        ({ status := "success", message := RouteMsg.fromSend (SendMsg.sentOk 'S'),
           httpCode := 200 }, { connectAttempts := 1, sentBytes := ['S'] })) ∧
    (command_map (lowerStr direction) = none →
      api_control_route outcome direction =
        ({ status := "error", message := RouteMsg.invalidDirection, httpCode := 400 },
         { connectAttempts := 0, sentBytes := [] })) := by
  refine ⟨?_, ?_, ?_, ?_, ?_, ?_⟩ <;> intro h <;>
    · unfold api_control_route
      rw [h]
      try decide

/-- Witness for C6 (amended): the mixed-case direction `"Up"` lowercases
to `up` and sends exactly byte `F` with a 200 success reply; the invalid
direction `"xyz"` yields the 400 error with no relay traffic. -/
theorem control_route_mapping_witness :
    api_control_route RelayOutcome.ok "Up" =
      ({ status := "success", message := RouteMsg.fromSend (SendMsg.sentOk 'F'),
         httpCode := 200 }, { connectAttempts := 1, sentBytes := ['F'] }) ∧
    api_control_route RelayOutcome.timeout "xyz" =
      ({ status := "error", message := RouteMsg.invalidDirection, httpCode := 400 },
       { connectAttempts := 0, sentBytes := [] }) :=
  ⟨(control_route_mapping RelayOutcome.ok "Up").1 (by decide),
   (control_route_mapping RelayOutcome.timeout "xyz").2.2.2.2.2 (by decide)⟩

/-- C5: for every stored frame whose age at the read is at or above the
one-second freshness threshold, `get_frame_jpeg_bytes` returns absent
(`None`), and a `generate_video_frames` iteration at that moment never
emits the stale payload — whatever `running` holds, the iteration output
is not a frame emission. -/
theorem stale_frame_not_emitted (self : CameraHandler) (b : Bytes) (t now : Time)
    (hfb : self.frame_bytes = some (some b)) (ht : self.last_frame_time = some t)
    (hlock : self.lock = true) (hstale : 1 ≤ now - t) :
    CameraHandler.get_frame_jpeg_bytes true self now = .ok none ∧
      ∀ b2, generate_video_frames_step true (some self) now ≠ SessionOutput.emitFrame b2 := by
  have hnotlt : ¬ (now - t < 1) := not_lt.mpr hstale
  have hget : CameraHandler.get_frame_jpeg_bytes true self now = .ok none := by
    by_cases hb : b.isEmpty <;>
      simp [CameraHandler.get_frame_jpeg_bytes, hlock, hfb, ht, getAttr, hb, hnotlt,
        Except.instMonad, Except.bind, Except.pure]
  refine ⟨hget, ?_⟩
  intro b2
  simp only [generate_video_frames_step, hget, video_iteration_core]
  rcases hr : getAttr self.running with e | r
  · simp
  · by_cases hrf : r = false <;> simp [hrf]

/-- Witness for C5: a running, fully initialised handler holding frame
`[5]` published at time `0`, read at time `2` — the read is absent and the
session iteration does not emit the payload. -/
theorem stale_frame_not_emitted_witness :
    CameraHandler.get_frame_jpeg_bytes true
      { camera := some (some true), frame_bytes := some (some [5]), running := some true,
        lock := true, resolution := some (640, 480), framerate := some 20,
        jpeg_quality := some 85, thread := some (some true), last_frame_time := some 0 }
      2 = .ok none ∧
    generate_video_frames_step true
      (some { camera := some (some true), frame_bytes := some (some [5]),
              running := some true, lock := true, resolution := some (640, 480),
              framerate := some 20, jpeg_quality := some 85, thread := some (some true),
              last_frame_time := some 0 })
      2 ≠ SessionOutput.emitFrame [5] := by
  have h := stale_frame_not_emitted
    { camera := some (some true), frame_bytes := some (some [5]), running := some true,
      lock := true, resolution := some (640, 480), framerate := some 20,
      jpeg_quality := some 85, thread := some (some true), last_frame_time := some 0 }
    [5] 0 2 rfl rfl rfl (by simp)
  exact ⟨h.1, h.2 [5]⟩

/-- C7: for every failure of device open or configuration during
`start()` (the device oracle reports the open or the configure step
raising, before any capture thread launches), `start` returns normally
with the handler in exactly its pre-call state — `running` stays false,
`camera` stays `None` — and the effect ledger shows every opened device
closed (no leak) and no thread launched. -/
theorem start_failure_no_leak (oracle : DeviceOracle) (self : CameraHandler)
    (hcam : self.camera = some none) (hrun : self.running = some false)
    (hfail : oracle.openOk = false ∨ oracle.configOk = false) :
    ∃ fx : StartEffects, CameraHandler.start true oracle self = .ok (self, fx) ∧
      fx.opens = fx.closes ∧ fx.threads = 0 := by
  obtain ⟨op, cf⟩ := oracle
  obtain ⟨camera, frame_bytes, running, lock, resolution, framerate, jq, thread, lft⟩ := self
  simp only at hcam hrun
  subst hcam hrun
  cases op with
  | false =>
    exact ⟨noFx, by simp [CameraHandler.start, CameraHandler.start_try_block, getAttr, noFx,
      Except.instMonad, Except.bind, Except.pure], rfl, rfl⟩
  | true =>
    cases cf with
    | true => rcases hfail with h | h <;> simp at h
    | false =>
      refine ⟨{ opens := 1, closes := 1, threads := 0 }, ?_, rfl, rfl⟩
      rcases resolution with _ | res <;> rcases framerate with _ | fr <;>
        simp [CameraHandler.start, CameraHandler.start_try_block, getAttr, noFx,
          Except.instMonad, Except.bind, Except.pure]

/-- Witness for C7: a freshly constructed available-library handler on
which the device open fails. -/
theorem start_failure_no_leak_witness :
    ∃ fx : StartEffects,
      CameraHandler.start true { openOk := false, configOk := true }
        (CameraHandler.init true (640, 480) 20 85) =
        .ok (CameraHandler.init true (640, 480) 20 85, fx) ∧
      fx.opens = fx.closes ∧ fx.threads = 0 :=
  start_failure_no_leak { openOk := false, configOk := true }
    (CameraHandler.init true (640, 480) 20 85) (by decide) (by decide) (Or.inl rfl)

/-- C8: for any initialised handler (the `thread` and `camera` attributes
assigned, as after a completed `stop()`), `stop()` succeeds — it raises
nothing — and the resulting state has `running` false, `camera` `None` and
`frame_bytes` `None`; calling `stop()` again on that state raises nothing
and returns exactly the same state, so two calls in a row end in the same
state as one. -/
theorem stop_idempotent (self : CameraHandler)
    (hth : self.thread ≠ none) (hcam : self.camera ≠ none) :
    ∃ self1 : CameraHandler, CameraHandler.stop true self = .ok self1 ∧
      CameraHandler.stop true self1 = .ok self1 ∧
      self1.running = some false ∧ self1.camera = some none ∧
      self1.frame_bytes = some none := by
  obtain ⟨camera, frame_bytes, running, lock, resolution, framerate, jq, thread, lft⟩ := self
  simp only [ne_eq] at hth hcam
  rcases thread with _ | th
  · simp at hth
  rcases camera with _ | cam
  · simp at hcam
  refine ⟨{ camera := some none, frame_bytes := some none, running := some false,
            lock := lock, resolution := resolution, framerate := framerate,
            jpeg_quality := jq, thread := some th, last_frame_time := lft }, ?_, ?_, rfl, rfl, rfl⟩
  · rcases cam with _ | b
    · simp [CameraHandler.stop, getAttr, Except.instMonad, Except.bind, Except.pure]
    · rcases b <;>
        simp [CameraHandler.stop, getAttr, Except.instMonad, Except.bind, Except.pure]
  · simp [CameraHandler.stop, getAttr, Except.instMonad, Except.bind, Except.pure]

/-- Witness for C8: a freshly constructed available-library handler,
stopped twice. -/
theorem stop_idempotent_witness :
    ∃ self1 : CameraHandler,
      CameraHandler.stop true (CameraHandler.init true (640, 480) 20 85) = .ok self1 ∧
      CameraHandler.stop true self1 = .ok self1 ∧
      self1.running = some false ∧ self1.camera = some none ∧
      self1.frame_bytes = some none :=
  stop_idempotent (CameraHandler.init true (640, 480) 20 85) (by decide) (by decide)

/-- C9: for every `CameraHandler` that is currently running (the
`running` attribute holds `True`; the `camera` attribute is assigned),
calling `start()` again returns immediately: the handler state is
returned unchanged and the effect ledger is empty — no device opened, no
device closed, no thread launched. -/
theorem start_running_noop (avail : Bool) (oracle : DeviceOracle) (self : CameraHandler)
    (c : Option Bool) (hcam : self.camera = some c) (hrun : self.running = some true) :
    CameraHandler.start avail oracle self = .ok (self, noFx) := by
  rcases c with _ | b
  · cases avail <;>
      simp [CameraHandler.start, hcam, hrun, getAttr,
        Except.instMonad, Except.bind, Except.pure]
  · cases avail <;>
      simp [CameraHandler.start, hcam, hrun, getAttr,
        Except.instMonad, Except.bind, Except.pure]

/-- Witness for C9: a concrete running handler; `start` with a willing
device oracle still changes nothing. -/
theorem start_running_noop_witness :
    CameraHandler.start true { openOk := true, configOk := true }
      { camera := some (some true), frame_bytes := some (some [2]), running := some true,
        lock := true, resolution := some (640, 480), framerate := some 20,
        jpeg_quality := some 85, thread := some (some true), last_frame_time := some 0 } =
      .ok ({ camera := some (some true), frame_bytes := some (some [2]),
             running := some true, lock := true, resolution := some (640, 480),
             framerate := some 20, jpeg_quality := some 85, thread := some (some true),
             last_frame_time := some 0 }, noFx) :=
  start_running_noop true { openOk := true, configOk := true }
    { camera := some (some true), frame_bytes := some (some [2]), running := some true,
      lock := true, resolution := some (640, 480), framerate := some 20,
      jpeg_quality := some 85, thread := some (some true), last_frame_time := some 0 }
    (some true) rfl rfl

/-- C10: when the camera capability is absent, the constructor leaves only
the `camera` and `running` attributes assigned (`lock`, `frame_bytes`,
`thread` and the rest unset), yet every public method guards on the
capability flag and returns early — `start` and `stop` return the handler
unchanged with no effects, `get_frame_jpeg_bytes` returns `None` — and no
method raises `AttributeError` by touching an unset attribute. -/
theorem init_unavailable_safe (resolution : Nat × Nat) (framerate jpeg_quality : Nat)
    (oracle : DeviceOracle) (now : Time) :
    (CameraHandler.init false resolution framerate jpeg_quality).camera = some none ∧
    (CameraHandler.init false resolution framerate jpeg_quality).running = some false ∧
    (CameraHandler.init false resolution framerate jpeg_quality).lock = false ∧
    (CameraHandler.init false resolution framerate jpeg_quality).frame_bytes = none ∧
    (CameraHandler.init false resolution framerate jpeg_quality).thread = none ∧
    CameraHandler.start false oracle (CameraHandler.init false resolution framerate jpeg_quality) =
      .ok (CameraHandler.init false resolution framerate jpeg_quality, noFx) ∧
    CameraHandler.stop false (CameraHandler.init false resolution framerate jpeg_quality) =
      .ok (CameraHandler.init false resolution framerate jpeg_quality) ∧
    CameraHandler.get_frame_jpeg_bytes false
      (CameraHandler.init false resolution framerate jpeg_quality) now = .ok none := by
  refine ⟨rfl, rfl, rfl, rfl, rfl, ?_, rfl, rfl⟩
  simp [CameraHandler.init, CameraHandler.start, getAttr, noFx,
    Except.instMonad, Except.bind, Except.pure]

/-- Witness for C10: the unavailable-library handler at the default
configuration. -/
theorem init_unavailable_safe_witness :
    CameraHandler.start false { openOk := true, configOk := true }
      (CameraHandler.init false (640, 480) 20 85) =
      .ok (CameraHandler.init false (640, 480) 20 85, noFx) ∧
    CameraHandler.stop false (CameraHandler.init false (640, 480) 20 85) =
      .ok (CameraHandler.init false (640, 480) 20 85) ∧
    CameraHandler.get_frame_jpeg_bytes false (CameraHandler.init false (640, 480) 20 85) 0 =
      .ok none := by
  have h := init_unavailable_safe (640, 480) 20 85 { openOk := true, configOk := true } 0
  exact ⟨h.2.2.2.2.2.1, h.2.2.2.2.2.2.1, h.2.2.2.2.2.2.2⟩
